import Mathlib

/-!
Shallow embedding of `src/src/lib.rs` of the snowprints repository.

Rust `u64` values are modelled as `Nat` with explicit `% 2 ^ 64` wherever the
source performs an arithmetic operation that can overflow (Rust release-mode
semantics: wrapping).  The system clock read
`SystemTime::now().duration_since(UNIX_EPOCH + origin)` is modelled as an
injected `Option Nat` per call: `some d` for `Ok(duration)` whose
`as_millis()` value is `d` (the `as u64` cast is the explicit `% 2 ^ 64`
below), `none` for the `Err` case.  Rust's in-place mutation of
`SnowprintState` is modelled by explicit state passing: every operation
returns the state as it is left after the call, including on error paths.
-/

namespace Snowprints

/-- Two to the sixty-fourth power: the modulus of Rust `u64` arithmetic. -/
def U64 : Nat := 2 ^ 64

/-- Source constant `SEQUENCE_BIT_LEN: u64 = 10`. -/
def SEQUENCE_BIT_LEN : Nat := 10

/-- Source constant `SEQUENCE_BIT_MASK: u64 = (1 << SEQUENCE_BIT_LEN) - 1`. -/
def SEQUENCE_BIT_MASK : Nat := (1 <<< SEQUENCE_BIT_LEN) - 1

/-- Source constant `MAX_SEQUENCES: u64 = u32::pow(2, SEQUENCE_BIT_LEN as u32) as u64`. -/
def MAX_SEQUENCES : Nat := 2 ^ SEQUENCE_BIT_LEN

/-- Source constant `LOGICAL_VOLUME_BIT_LEN: u64 = 13`. -/
def LOGICAL_VOLUME_BIT_LEN : Nat := 13

/-- Source constant
`LOGICAL_VOLUME_BIT_MASK: u64 = ((1 << LOGICAL_VOLUME_BIT_LEN) - 1) << SEQUENCE_BIT_LEN`. -/
def LOGICAL_VOLUME_BIT_MASK : Nat :=
  ((1 <<< LOGICAL_VOLUME_BIT_LEN) - 1) <<< SEQUENCE_BIT_LEN

/-- Source constant `MAX_LOGICAL_VOLUMES: u64 = u32::pow(2, LOGICAL_VOLUME_BIT_LEN as u32) as u64`. -/
def MAX_LOGICAL_VOLUMES : Nat := 2 ^ LOGICAL_VOLUME_BIT_LEN

/-- The `Error` enum of the source. -/
inductive Error where
  | LogicalVolumeModuleIsZero
  | ExceededAvailableLogicalVolumes
  | FailedToParseOriginDuration
  | NoAvailableSequences
deriving DecidableEq

/-- The `SnowprintSettings` struct.  `origin_duration` only feeds the clock
read, which is injected, so it is carried as its millisecond value. -/
structure SnowprintSettings where
  origin_duration_ms : Nat
  logical_volume_modulo : Nat
  logical_volume_base : Nat
deriving DecidableEq

/-- The `SnowprintState` struct. -/
structure SnowprintState where
  last_duration_ms : Nat
  sequence_id : Nat
  logical_volume_id : Nat
  last_logical_volume_id : Nat
deriving DecidableEq

/-- Source `fn check_settings`.  The sum `logical_volume_base +
logical_volume_modulo` is a `u64` addition, hence the `% U64`. -/
def check_settings (settings : SnowprintSettings) : Except Error Unit :=
  if settings.logical_volume_modulo = 0 then
    .error .LogicalVolumeModuleIsZero
  else if (settings.logical_volume_base + settings.logical_volume_modulo) % U64
      > MAX_LOGICAL_VOLUMES then
    .error .ExceededAvailableLogicalVolumes
  else
    .ok ()

/-- Source `fn get_most_recent_duration`, with the clock read injected as
`reading`.  `as_millis() as u64` is the truncation `% U64`. -/
def get_most_recent_duration (reading : Option Nat) (last_duration_ms : Nat) : Nat :=
  match reading with
  | some duration =>
    let dur_ms := duration % U64
    if dur_ms > last_duration_ms then dur_ms else last_duration_ms
  | none => last_duration_ms

/-- Source `fn time_changed`.  Note the Rust code stores the old
`logical_volume_id` into `last_logical_volume_id` before rotating.  (Rust `%`
by zero panics; claims only concern `logical_volume_modulo ≥ 1`, where the
Lean `%` agrees with Rust.) -/
def time_changed (state : SnowprintState) (settings : SnowprintSettings)
    (duration_ms : Nat) : SnowprintState :=
  { last_duration_ms := duration_ms
    sequence_id := 0
    logical_volume_id := ((state.logical_volume_id + 1) % U64) % settings.logical_volume_modulo
    last_logical_volume_id := state.logical_volume_id }

/-- Source `fn time_did_not_change`.  The Rust function mutates
`state.sequence_id += 1` before any check, so the mutated state is returned
even when the function fails; the `Option Error` component is `Err`/`Ok` of
the source. -/
def time_did_not_change (state : SnowprintState) (settings : SnowprintSettings) :
    SnowprintState × Option Error :=
  let state1 := { state with sequence_id := (state.sequence_id + 1) % U64 }
  if state1.sequence_id > MAX_SEQUENCES - 1 then
    let next_logical_volume_id :=
      ((state1.logical_volume_id + 1) % U64) % settings.logical_volume_modulo
    if next_logical_volume_id = state1.last_logical_volume_id then
      (state1, some .NoAvailableSequences)
    else
      ({ state1 with sequence_id := 0, logical_volume_id := next_logical_volume_id }, none)
  else
    (state1, none)

/-- Source `pub fn compose_snowprint`: `ms_timestamp << 23 | logical_id << 10
| ticket_id` in `u64` arithmetic (shifts truncate to 64 bits). -/
def compose_snowprint (ms_timestamp : Nat) (logical_id : Nat) (ticket_id : Nat) : Nat :=
  ((ms_timestamp <<< (LOGICAL_VOLUME_BIT_LEN + SEQUENCE_BIT_LEN)) % U64) |||
    ((logical_id <<< SEQUENCE_BIT_LEN) % U64) ||| ticket_id

/-- Source `pub fn decompose_snowprint`. -/
def decompose_snowprint (snowprint : Nat) : Nat × Nat × Nat :=
  let time := snowprint >>> (LOGICAL_VOLUME_BIT_LEN + SEQUENCE_BIT_LEN)
  let logical_id := (snowprint &&& LOGICAL_VOLUME_BIT_MASK) >>> SEQUENCE_BIT_LEN
  let ticket_id := snowprint &&& SEQUENCE_BIT_MASK
  (time, logical_id, ticket_id)

/-- Source `fn compose_snowprint_from_settings_and_state`.  Returns the state
as left by the call together with the `Result`.  The shard passed to
`compose_snowprint` is the `u64` sum `logical_volume_base +
logical_volume_id`. -/
def compose_snowprint_from_settings_and_state (settings : SnowprintSettings)
    (state : SnowprintState) (duration_ms : Nat) : SnowprintState × Except Error Nat :=
  if state.last_duration_ms < duration_ms then
    let s := time_changed state settings duration_ms
    (s, .ok (compose_snowprint duration_ms
      ((settings.logical_volume_base + s.logical_volume_id) % U64) s.sequence_id))
  else
    match time_did_not_change state settings with
    | (s, some err) => (s, .error err)
    | (s, none) => (s, .ok (compose_snowprint duration_ms
        ((settings.logical_volume_base + s.logical_volume_id) % U64) s.sequence_id))

/-- Source `pub fn get_snowprint` (the `next` operation), with the clock read
of this call injected as `reading`. -/
def get_snowprint (settings : SnowprintSettings) (state : SnowprintState)
    (reading : Option Nat) : SnowprintState × Except Error Nat :=
  let duration_ms := get_most_recent_duration reading state.last_duration_ms
  compose_snowprint_from_settings_and_state settings state duration_ms

/-- Source `Snowprint::new`, with the construction-time clock read injected as
`reading` (`none` models the `Err` branch of `duration_since`). -/
def snowprint_new (settings : SnowprintSettings) (reading : Option Nat) :
    Except Error (SnowprintSettings × SnowprintState) :=
  match check_settings settings with
  | .error err => .error err
  | .ok _ =>
    match reading with
    | none => .error .FailedToParseOriginDuration
    | some duration =>
      .ok (settings,
        { last_duration_ms := duration % U64
          sequence_id := 0
          logical_volume_id := 0
          last_logical_volume_id := 0 })

/-- State of a generator after `k` serial calls to `get_snowprint`, starting
from state `s0`, where call `k` (0-indexed) sees the clock reading
`readings k`. -/
def runState (settings : SnowprintSettings) (readings : Nat → Option Nat)
    (s0 : SnowprintState) : Nat → SnowprintState
  | 0 => s0
  | k + 1 => (get_snowprint settings (runState settings readings s0 k) (readings k)).1

/-- Result (identifier or error) of call `k` (0-indexed) in the serial run. -/
def runResult (settings : SnowprintSettings) (readings : Nat → Option Nat)
    (s0 : SnowprintState) (k : Nat) : Except Error Nat :=
  (get_snowprint settings (runState settings readings s0 k) (readings k)).2

theorem runResult_def (settings : SnowprintSettings) (readings : Nat → Option Nat)
    (s0 : SnowprintState) (k : Nat) :
    runResult settings readings s0 k =
      (get_snowprint settings (runState settings readings s0 k) (readings k)).2 := rfl

/-! ### Bit-arithmetic helper lemmas -/

theorem lor_shiftRight_distrib (x y k : Nat) : (x ||| y) >>> k = x >>> k ||| y >>> k := by
  apply Nat.eq_of_testBit_eq
  intro i
  simp [Nat.testBit_or, Nat.testBit_shiftRight]

theorem two_pow_mul_lor_eq_add (a b k : Nat) (hb : b < 2 ^ k) :
    a * 2 ^ k ||| b = a * 2 ^ k + b := by
  have hmod : (a * 2 ^ k ||| b) % 2 ^ k = b := by
    rw [← Nat.and_pow_two_sub_one_eq_mod, Nat.and_distrib_right,
      Nat.and_pow_two_sub_one_eq_mod, Nat.and_pow_two_sub_one_eq_mod,
      Nat.mul_mod_left, Nat.mod_eq_of_lt hb]
    simp
  have hdiv : (a * 2 ^ k ||| b) / 2 ^ k = a := by
    rw [← Nat.shiftRight_eq_div_pow, lor_shiftRight_distrib,
      Nat.shiftRight_eq_div_pow, Nat.shiftRight_eq_div_pow,
      Nat.mul_div_cancel _ (Nat.two_pow_pos k), Nat.div_eq_of_lt hb]
    simp
  calc a * 2 ^ k ||| b
      = 2 ^ k * ((a * 2 ^ k ||| b) / 2 ^ k) + (a * 2 ^ k ||| b) % 2 ^ k :=
        (Nat.div_add_mod _ _).symm
    _ = a * 2 ^ k + b := by rw [hdiv, hmod, Nat.mul_comm]

theorem and_shiftLeft_mask (x a b : Nat) :
    x &&& (2 ^ a - 1) <<< b = ((x >>> b) % 2 ^ a) <<< b := by
  apply Nat.eq_of_testBit_eq
  intro i
  simp only [Nat.testBit_and, Nat.testBit_shiftLeft, Nat.testBit_mod_two_pow,
    Nat.testBit_two_pow_sub_one, Nat.testBit_shiftRight]
  by_cases hb : b ≤ i
  · have hbi : b + (i - b) = i := by omega
    simp only [ge_iff_le, hb, hbi]
    cases x.testBit i <;> cases Decidable.decide (i - b < a) <;> simp
  · simp [ge_iff_le, hb]

/-- Arithmetic form of `compose_snowprint` for in-range shard and sequence:
the timestamp wraps at `2 ^ 41` and the three fields pack additively. -/
theorem compose_snowprint_eq_add (t s q : Nat) (hs : s < 2 ^ 13) (hq : q < 2 ^ 10) :
    compose_snowprint t s q = t % 2 ^ 41 * 2 ^ 23 + s * 2 ^ 10 + q := by
  have hbits : LOGICAL_VOLUME_BIT_LEN + SEQUENCE_BIT_LEN = 23 := rfl
  have hsq : s * 2 ^ 10 + q < 2 ^ 23 := by
    have h1 : s * 2 ^ 10 + q < 2 ^ 13 * 2 ^ 10 := by
      have := Nat.mul_le_mul_right (2 ^ 10) (Nat.succ_le_of_lt hs)
      omega
    omega
  have e1 : t <<< 23 % U64 = t % 2 ^ 41 * 2 ^ 23 := by
    rw [Nat.shiftLeft_eq]
    have hU : U64 = 2 ^ 41 * 2 ^ 23 := by norm_num [U64]
    rw [hU, Nat.mul_mod_mul_right]
  have e2 : s <<< SEQUENCE_BIT_LEN % U64 = s * 2 ^ 10 := by
    rw [Nat.shiftLeft_eq]
    show s * 2 ^ 10 % U64 = s * 2 ^ 10
    apply Nat.mod_eq_of_lt
    have : (2 : Nat) ^ 23 ≤ 2 ^ 64 := by norm_num
    unfold U64
    omega
  unfold compose_snowprint
  rw [hbits, e1, e2, Nat.or_assoc,
    two_pow_mul_lor_eq_add s q 10 hq,
    two_pow_mul_lor_eq_add (t % 2 ^ 41) (s * 2 ^ 10 + q) 23 hsq,
    Nat.add_assoc]

/-- `decompose_snowprint` recovers in-range shard and sequence exactly, and
the timestamp modulo `2 ^ 41`, from any composed identifier. -/
theorem decompose_compose (t s q : Nat) (hs : s < 2 ^ 13) (hq : q < 2 ^ 10) :
    decompose_snowprint (compose_snowprint t s q) = (t % 2 ^ 41, s, q) := by
  rw [compose_snowprint_eq_add t s q hs hq]
  have ht : t % 2 ^ 41 < 2 ^ 41 := Nat.mod_lt _ (by norm_num)
  unfold decompose_snowprint
  have hbits : LOGICAL_VOLUME_BIT_LEN + SEQUENCE_BIT_LEN = 23 := rfl
  have hmask1 : SEQUENCE_BIT_MASK = 2 ^ 10 - 1 := rfl
  have hmask2 : LOGICAL_VOLUME_BIT_MASK = (2 ^ 13 - 1) <<< 10 := rfl
  have e1 : (t % 2 ^ 41 * 2 ^ 23 + s * 2 ^ 10 + q) >>> 23 = t % 2 ^ 41 := by
    rw [Nat.shiftRight_eq_div_pow]
    omega
  have e3 : (t % 2 ^ 41 * 2 ^ 23 + s * 2 ^ 10 + q) &&& SEQUENCE_BIT_MASK = q := by
    rw [hmask1, Nat.and_pow_two_sub_one_eq_mod]
    omega
  have e2 : ((t % 2 ^ 41 * 2 ^ 23 + s * 2 ^ 10 + q) &&& LOGICAL_VOLUME_BIT_MASK) >>> 10 = s := by
    rw [hmask2, and_shiftLeft_mask, Nat.shiftLeft_eq, Nat.shiftRight_eq_div_pow,
      Nat.mul_div_cancel _ (Nat.two_pow_pos 10), Nat.shiftRight_eq_div_pow]
    omega
  have hsl : SEQUENCE_BIT_LEN = 10 := rfl
  dsimp only
  rw [hbits, hsl, e1, e2, e3]

/-! ### Constant values and small facts -/

theorem U64_val : U64 = 18446744073709551616 := by norm_num [U64]

theorem MAX_SEQUENCES_val : MAX_SEQUENCES = 1024 := rfl

theorem MAX_LOGICAL_VOLUMES_val : MAX_LOGICAL_VOLUMES = 8192 := rfl

theorem mod_U64_small {n : Nat} (h : n < U64) : n % U64 = n := Nat.mod_eq_of_lt h

theorem lt_U64_of_le {n : Nat} (h : n ≤ 2199023255552) : n < U64 := by
  rw [U64_val]; omega

/-! ### Clock clamping lemmas -/

theorem get_most_recent_duration_none (last : Nat) :
    get_most_recent_duration none last = last := rfl

theorem get_most_recent_duration_le {r last : Nat} (h : r % U64 ≤ last) :
    get_most_recent_duration (some r) last = last := by
  unfold get_most_recent_duration
  exact if_neg (by omega)

theorem get_most_recent_duration_gt {r last : Nat} (h : last < r % U64) :
    get_most_recent_duration (some r) last = r % U64 := by
  unfold get_most_recent_duration
  exact if_pos h

/-! ### Single-call step lemmas -/

/-- A call whose clamped duration equals the stored millisecond and whose
sequence counter has room: the counter is incremented and stamped. -/
theorem get_snowprint_same_ms (settings : SnowprintSettings) (st : SnowprintState)
    (reading : Option Nat)
    (hread : get_most_recent_duration reading st.last_duration_ms = st.last_duration_ms)
    (hseq : st.sequence_id + 1 ≤ 1023) :
    get_snowprint settings st reading =
      ({ st with sequence_id := st.sequence_id + 1 },
        .ok (compose_snowprint st.last_duration_ms
          ((settings.logical_volume_base + st.logical_volume_id) % U64)
          (st.sequence_id + 1))) := by
  have hw : (st.sequence_id + 1) % U64 = st.sequence_id + 1 :=
    mod_U64_small (lt_U64_of_le (by omega))
  unfold get_snowprint
  rw [hread]
  unfold compose_snowprint_from_settings_and_state
  rw [if_neg (lt_irrefl _)]
  unfold time_did_not_change
  dsimp only
  rw [hw, if_neg (by rw [MAX_SEQUENCES_val]; omega)]

/-- A call whose clamped duration equals the stored millisecond, whose
sequence counter is exhausted, and whose next shard candidate equals
`last_logical_volume_id`: the call fails, leaving the incremented sequence
counter behind. -/
theorem get_snowprint_overflow_fail (settings : SnowprintSettings) (st : SnowprintState)
    (reading : Option Nat)
    (hread : get_most_recent_duration reading st.last_duration_ms = st.last_duration_ms)
    (hseq : 1023 < st.sequence_id + 1) (hwrap : st.sequence_id + 1 < U64)
    (hlv : st.logical_volume_id + 1 < U64)
    (hcand : (st.logical_volume_id + 1) % settings.logical_volume_modulo
      = st.last_logical_volume_id) :
    get_snowprint settings st reading =
      ({ st with sequence_id := st.sequence_id + 1 }, .error .NoAvailableSequences) := by
  have hw : (st.sequence_id + 1) % U64 = st.sequence_id + 1 := mod_U64_small hwrap
  have hl : (st.logical_volume_id + 1) % U64 = st.logical_volume_id + 1 := mod_U64_small hlv
  unfold get_snowprint
  rw [hread]
  unfold compose_snowprint_from_settings_and_state
  rw [if_neg (lt_irrefl _)]
  unfold time_did_not_change
  dsimp only
  rw [hw, hl, if_pos (by rw [MAX_SEQUENCES_val]; omega), if_pos hcand]

/-- A call whose clamped duration equals the stored millisecond, whose
sequence counter is exhausted, but whose next shard candidate is still
available: the sequence resets to `0` on the next shard. -/
theorem get_snowprint_overflow_move (settings : SnowprintSettings) (st : SnowprintState)
    (reading : Option Nat)
    (hread : get_most_recent_duration reading st.last_duration_ms = st.last_duration_ms)
    (hseq : 1023 < st.sequence_id + 1) (hwrap : st.sequence_id + 1 < U64)
    (hlv : st.logical_volume_id + 1 < U64)
    (hcand : (st.logical_volume_id + 1) % settings.logical_volume_modulo
      ≠ st.last_logical_volume_id) :
    get_snowprint settings st reading =
      ({ st with
          sequence_id := 0
          logical_volume_id := (st.logical_volume_id + 1) % settings.logical_volume_modulo },
        .ok (compose_snowprint st.last_duration_ms
          ((settings.logical_volume_base +
            (st.logical_volume_id + 1) % settings.logical_volume_modulo) % U64) 0)) := by
  have hw : (st.sequence_id + 1) % U64 = st.sequence_id + 1 := mod_U64_small hwrap
  have hl : (st.logical_volume_id + 1) % U64 = st.logical_volume_id + 1 := mod_U64_small hlv
  unfold get_snowprint
  rw [hread]
  unfold compose_snowprint_from_settings_and_state
  rw [if_neg (lt_irrefl _)]
  unfold time_did_not_change
  dsimp only
  rw [hw, hl, if_pos (by rw [MAX_SEQUENCES_val]; omega), if_neg hcand]

/-- A call whose clamped duration is strictly past the stored millisecond:
the state rolls over to the new millisecond, rotating the shard and stamping
sequence `0`. -/
theorem get_snowprint_time_changed (settings : SnowprintSettings) (st : SnowprintState)
    (reading : Option Nat) (d : Nat)
    (hread : get_most_recent_duration reading st.last_duration_ms = d)
    (hlt : st.last_duration_ms < d) (hlv : st.logical_volume_id + 1 < U64) :
    get_snowprint settings st reading =
      ({ last_duration_ms := d, sequence_id := 0,
         logical_volume_id := (st.logical_volume_id + 1) % settings.logical_volume_modulo,
         last_logical_volume_id := st.logical_volume_id },
        .ok (compose_snowprint d
          ((settings.logical_volume_base +
            (st.logical_volume_id + 1) % settings.logical_volume_modulo) % U64) 0)) := by
  have hl : (st.logical_volume_id + 1) % U64 = st.logical_volume_id + 1 := mod_U64_small hlv
  unfold get_snowprint
  rw [hread]
  unfold compose_snowprint_from_settings_and_state
  rw [if_pos hlt]
  unfold time_changed
  dsimp only
  rw [hl]

/-! ### Run lemmas -/

theorem runState_zero (settings : SnowprintSettings) (readings : Nat → Option Nat)
    (s0 : SnowprintState) : runState settings readings s0 0 = s0 := rfl

theorem runState_succ (settings : SnowprintSettings) (readings : Nat → Option Nat)
    (s0 : SnowprintState) (k : Nat) :
    runState settings readings s0 (k + 1) =
      (get_snowprint settings (runState settings readings s0 k) (readings k)).1 := rfl

/-- Runs split: the state after `a + b` calls is the state after `b` calls
starting from the state after `a` calls, with the readings shifted by `a`. -/
theorem runState_add (settings : SnowprintSettings) (readings : Nat → Option Nat)
    (s0 : SnowprintState) (a b : Nat) :
    runState settings readings s0 (a + b) =
      runState settings (fun k => readings (a + k)) (runState settings readings s0 a) b := by
  induction b with
  | zero => rfl
  | succ k ih =>
    show runState settings readings s0 ((a + k) + 1) = _
    rw [runState_succ, ih]
    rfl

theorem runResult_add (settings : SnowprintSettings) (readings : Nat → Option Nat)
    (s0 : SnowprintState) (a b : Nat) :
    runResult settings readings s0 (a + b) =
      runResult settings (fun k => readings (a + k)) (runState settings readings s0 a) b := by
  unfold runResult
  rw [runState_add]

/-- Running `j` same-millisecond calls with enough sequence capacity counts
the sequence counter up by `j` and changes nothing else. -/
theorem runState_same_ms (settings : SnowprintSettings) (readings : Nat → Option Nat)
    (st : SnowprintState) (j : Nat)
    (hread : ∀ i, i < j →
      get_most_recent_duration (readings i) st.last_duration_ms = st.last_duration_ms)
    (hseq : st.sequence_id + j ≤ 1023) :
    runState settings readings st j = { st with sequence_id := st.sequence_id + j } := by
  induction j with
  | zero => rfl
  | succ k ih =>
    rw [runState_succ, ih (fun i hi => hread i (by omega)) (by omega),
      get_snowprint_same_ms settings { st with sequence_id := st.sequence_id + k }
        (readings k) (hread k (by omega)) (by dsimp only; omega)]
    have : st.sequence_id + k + 1 = st.sequence_id + (k + 1) := by omega
    dsimp only
    rw [this]

/-- Identifier returned by call `i` inside a same-millisecond streak. -/
theorem runResult_same_ms (settings : SnowprintSettings) (readings : Nat → Option Nat)
    (st : SnowprintState) (j i : Nat) (hi : i < j)
    (hread : ∀ t, t < j →
      get_most_recent_duration (readings t) st.last_duration_ms = st.last_duration_ms)
    (hseq : st.sequence_id + j ≤ 1023) :
    runResult settings readings st i =
      .ok (compose_snowprint st.last_duration_ms
        ((settings.logical_volume_base + st.logical_volume_id) % U64)
        (st.sequence_id + i + 1)) := by
  unfold runResult
  rw [runState_same_ms settings readings st i (fun t ht => hread t (by omega)) (by omega),
    get_snowprint_same_ms settings { st with sequence_id := st.sequence_id + i }
      (readings i) (hread i hi) (by dsimp only; omega)]

/-! ### Claim C5 -/

/-- Claim C5 (confirmed): for every timestamp `t < 2 ^ 41`, shard id
`s < 2 ^ 13`, and sequence `q < 2 ^ 10`,
`decompose_snowprint (compose_snowprint t s q) = (t, s, q)`, where
`compose_snowprint` is the bit-packing `t <<< 23 ||| s <<< 10 ||| q`. -/
theorem claim_C5 (t s q : Nat) (ht : t < 2 ^ 41) (hs : s < 2 ^ 13) (hq : q < 2 ^ 10) :
    decompose_snowprint (compose_snowprint t s q) = (t, s, q) := by
  rw [decompose_compose t s q hs hq, Nat.mod_eq_of_lt ht]

theorem claim_C5_witness :
    (5 : Nat) < 2 ^ 41 ∧ (3 : Nat) < 2 ^ 13 ∧ (7 : Nat) < 2 ^ 10 ∧
      decompose_snowprint (compose_snowprint 5 3 7) = (5, 3, 7) :=
  ⟨by norm_num, by norm_num, by norm_num,
    claim_C5 5 3 7 (by norm_num) (by norm_num) (by norm_num)⟩

/-! ### Claim C7 -/

/-- Claim C7 counterexample: the clause "construction fails with the
shard-range error whenever `logical_volume_base + logical_volume_modulo >
8192`" is false on the code at two explicit inputs: with `base = 9000`,
`modulo = 0` the sum exceeds 8192 but the zero-modulo error is returned
instead; and with `base = 2 ^ 64 - 1`, `modulo = 2` the true sum exceeds 8192
but the wrapped u64 sum is `1`, so the check passes. -/
theorem claim_C7_counterexample :
    ((9000 : Nat) + 0 > 8192 ∧
      check_settings ⟨0, 0, 9000⟩ = .error .LogicalVolumeModuleIsZero) ∧
    ((U64 - 1) + 2 > 8192 ∧
      check_settings ⟨0, 2, U64 - 1⟩ = .ok ()) := by
  refine ⟨⟨by omega, rfl⟩, ⟨by rw [U64_val]; omega, ?_⟩⟩
  unfold check_settings
  rw [if_neg (by simp),
    if_neg (by dsimp only; rw [MAX_LOGICAL_VOLUMES_val, U64_val]; omega)]

/-- Claim C7 (corrected): construction fails with the zero-modulo error
whenever `logical_volume_modulo = 0`; it fails with the shard-range error
whenever `logical_volume_modulo ≥ 1` and `logical_volume_base +
logical_volume_modulo > 8192`, provided that u64 sum does not wrap
(`base + modulo < 2 ^ 64`); and the check passes whenever `modulo ≥ 1` and
`base + modulo ≤ 8192`. -/
theorem claim_C7 :
    (∀ s : SnowprintSettings, s.logical_volume_modulo = 0 →
      check_settings s = .error .LogicalVolumeModuleIsZero) ∧
    (∀ s : SnowprintSettings, 1 ≤ s.logical_volume_modulo →
      s.logical_volume_base + s.logical_volume_modulo > 8192 →
      s.logical_volume_base + s.logical_volume_modulo < U64 →
      check_settings s = .error .ExceededAvailableLogicalVolumes) ∧
    (∀ s : SnowprintSettings, 1 ≤ s.logical_volume_modulo →
      s.logical_volume_base + s.logical_volume_modulo ≤ 8192 →
      check_settings s = .ok ()) := by
  refine ⟨fun s h0 => ?_, fun s h1 hgt hlt => ?_, fun s h1 hle => ?_⟩
  · unfold check_settings
    rw [if_pos h0]
  · unfold check_settings
    rw [if_neg (by omega),
      if_pos (by rw [mod_U64_small hlt, MAX_LOGICAL_VOLUMES_val]; omega)]
  · unfold check_settings
    rw [if_neg (by omega),
      if_neg (by rw [mod_U64_small (lt_U64_of_le (by omega)), MAX_LOGICAL_VOLUMES_val]; omega)]

theorem claim_C7_witness :
    (check_settings ⟨0, 0, 0⟩ = .error .LogicalVolumeModuleIsZero) ∧
    (check_settings ⟨0, 200, 8000⟩ = .error .ExceededAvailableLogicalVolumes) ∧
    (check_settings ⟨0, 192, 8000⟩ = .ok ()) :=
  ⟨claim_C7.1 ⟨0, 0, 0⟩ rfl,
    claim_C7.2.1 ⟨0, 200, 8000⟩ (by norm_num) (by norm_num) (by rw [U64_val]; norm_num),
    claim_C7.2.2 ⟨0, 192, 8000⟩ (by norm_num) (by norm_num)⟩

/-! ### Claim C10 -/

/-- Claim C10 (confirmed): the settings check adds `logical_volume_base` and
`logical_volume_modulo` in 64-bit machine arithmetic, so with
`base = 2 ^ 64 - 1`, `modulo = 2` the sum wraps to `1 ≤ 8192`: the true sum
exceeds `2 ^ 64`, construction does not return the shard-range error, and a
subsequent call feeds the shard value `2 ^ 64 - 1 ≥ 2 ^ 13`, outside the
13-bit field, to `compose_snowprint`. -/
theorem claim_C10 :
    ((U64 - 1) + 2) % U64 = 1 ∧
    (U64 - 1) + 2 > U64 ∧
    check_settings ⟨0, 2, U64 - 1⟩ = .ok () ∧
    get_snowprint ⟨0, 2, U64 - 1⟩ ⟨0, 0, 0, 0⟩ (some 0) =
      (⟨0, 1, 0, 0⟩, .ok (compose_snowprint 0 (U64 - 1) 1)) ∧
    U64 - 1 ≥ 2 ^ 13 := by
  have hU : U64 = 18446744073709551616 := U64_val
  refine ⟨by rw [hU], by rw [hU]; omega, ?_, ?_, by rw [hU]; norm_num⟩
  · unfold check_settings
    rw [if_neg (by simp),
      if_neg (by dsimp only; rw [MAX_LOGICAL_VOLUMES_val, U64_val]; omega)]
  · rw [get_snowprint_same_ms ⟨0, 2, U64 - 1⟩ ⟨0, 0, 0, 0⟩ (some 0)
      (get_most_recent_duration_le (by simp)) (by norm_num)]
    dsimp only
    have h1 : (0 : Nat) + 1 = 1 := rfl
    have h2 : U64 - 1 + 0 = U64 - 1 := rfl
    rw [h1, h2, mod_U64_small (by rw [hU]; omega)]

/-! ### Frozen-clock scenarios

The clock is frozen at the construction millisecond `0`: every call reads
`some 0`.  With `logical_volume_modulo = 1` (the C3 scenario) the `k`-th call
(`k` zero-indexed, `k ≤ 1022`) stamps sequence `k + 1`, and call `1023`
fails; sequence `0` is never stamped because `time_did_not_change`
increments `sequence_id` before composing. -/

def frozen_readings : Nat → Option Nat := fun _ => some 0

def c3_settings : SnowprintSettings := ⟨0, 1, 0⟩

def c4_settings : SnowprintSettings := ⟨0, 2, 0⟩

def state0 : SnowprintState := ⟨0, 0, 0, 0⟩

theorem frozen_read_const (last : Nat) :
    get_most_recent_duration (some 0) last = last :=
  get_most_recent_duration_le (by simp)

theorem c3_runState (settings : SnowprintSettings) (k : Nat) (hk : k ≤ 1023) :
    runState settings frozen_readings state0 k = ⟨0, k, 0, 0⟩ := by
  rw [runState_same_ms settings frozen_readings state0 k
    (fun i hi => frozen_read_const _) (by unfold state0; dsimp only; omega)]
  simp [state0]

theorem c3_runResult (settings : SnowprintSettings) (k : Nat) (hk : k < 1023) :
    runResult settings frozen_readings state0 k =
      .ok (compose_snowprint 0 (settings.logical_volume_base % U64) (k + 1)) := by
  rw [runResult_same_ms settings frozen_readings state0 1023 k hk
    (fun t ht => frozen_read_const _) (by unfold state0; dsimp only; omega)]
  simp [state0]

theorem c3_fail :
    get_snowprint c3_settings ⟨0, 1023, 0, 0⟩ (some 0) =
      (⟨0, 1024, 0, 0⟩, .error .NoAvailableSequences) := by
  rw [get_snowprint_overflow_fail c3_settings ⟨0, 1023, 0, 0⟩ (some 0)
    (frozen_read_const _) (by norm_num) (lt_U64_of_le (by norm_num))
    (lt_U64_of_le (by norm_num)) (by rfl)]

/-! ### Claim C3 -/

/-- Claim C3 counterexample: with `logical_volume_modulo = 1` and the clock
frozen at the construction millisecond, the 1024th call (index 1023) fails
with `NoAvailableSequences`, so it is false that the first 1024 calls all
succeed. -/
theorem claim_C3_counterexample :
    runResult c3_settings frozen_readings state0 1023 = .error .NoAvailableSequences := by
  have hf : frozen_readings 1023 = some 0 := rfl
  rw [runResult_def, c3_runState c3_settings 1023 (by norm_num), hf, c3_fail]

/-- Claim C3 (corrected): on a generator constructed with
`logical_volume_modulo = 1` and the clock frozen at the construction
millisecond, the first 1023 calls succeed and their identifiers carry
strictly increasing sequence field values 1 through 1023 (call `k`,
zero-indexed, carries sequence `k + 1`; sequence `0` is never emitted because
the counter is incremented before composing), and the 1024th call fails with
`NoAvailableSequences`. -/
theorem claim_C3 :
    snowprint_new c3_settings (some 0) = .ok (c3_settings, state0) ∧
    (∀ k, k < 1023 → runResult c3_settings frozen_readings state0 k =
      .ok (compose_snowprint 0 0 (k + 1))) ∧
    (∀ k, k < 1023 →
      (decompose_snowprint (compose_snowprint 0 0 (k + 1))).2.2 = k + 1) ∧
    runResult c3_settings frozen_readings state0 1023 = .error .NoAvailableSequences := by
  refine ⟨rfl, fun k hk => ?_, fun k hk => ?_, ?_⟩
  · rw [c3_runResult c3_settings k hk]
    rfl
  · rw [decompose_compose 0 0 (k + 1) (by norm_num) (by omega)]
  · have hf : frozen_readings 1023 = some 0 := rfl
    rw [runResult_def, c3_runState c3_settings 1023 (by norm_num), hf, c3_fail]

theorem claim_C3_witness :
    (0 : Nat) < 1023 ∧
    runResult c3_settings frozen_readings state0 0 = .ok (compose_snowprint 0 0 1) :=
  ⟨by norm_num, claim_C3.2.1 0 (by norm_num)⟩

/-! ### Claim C9 -/

/-- Claim C9 counterexample: a failing call does mutate the state.  From the
frozen-clock `modulo = 1` scenario, the state after 1023 calls is
`⟨0, 1023, 0, 0⟩`; the next call fails with `NoAvailableSequences` and leaves
`sequence_id = 1024`, a changed state. -/
theorem claim_C9_counterexample :
    runState c3_settings frozen_readings state0 1023 = ⟨0, 1023, 0, 0⟩ ∧
    get_snowprint c3_settings ⟨0, 1023, 0, 0⟩ (some 0) =
      (⟨0, 1024, 0, 0⟩, .error .NoAvailableSequences) ∧
    (⟨0, 1024, 0, 0⟩ : SnowprintState) ≠ ⟨0, 1023, 0, 0⟩ := by
  refine ⟨c3_runState c3_settings 1023 (by norm_num), c3_fail, by decide⟩

/-- A failing call always fails with `NoAvailableSequences`, leaves
`last_duration_ms`, `logical_volume_id` and `last_logical_volume_id`
untouched, and leaves `sequence_id` incremented. -/
theorem get_snowprint_error_shape (settings : SnowprintSettings) (st : SnowprintState)
    (reading : Option Nat) (st2 : SnowprintState) (e : Error)
    (h : get_snowprint settings st reading = (st2, .error e)) :
    e = .NoAvailableSequences ∧
    st2.last_duration_ms = st.last_duration_ms ∧
    st2.logical_volume_id = st.logical_volume_id ∧
    st2.last_logical_volume_id = st.last_logical_volume_id ∧
    st2.sequence_id = (st.sequence_id + 1) % U64 := by
  have htd : ∀ s1 : SnowprintState, ∀ er : Error,
      time_did_not_change st settings = (s1, some er) →
      er = .NoAvailableSequences ∧
        s1 = { st with sequence_id := (st.sequence_id + 1) % U64 } := by
    intro s1 er hh
    unfold time_did_not_change at hh
    dsimp only at hh
    split at hh
    · split at hh
      · cases hh
        exact ⟨rfl, rfl⟩
      · cases hh
    · cases hh
  unfold get_snowprint compose_snowprint_from_settings_and_state at h
  dsimp only at h
  rcases htd2 : time_did_not_change st settings with ⟨s1, oe⟩
  rw [htd2] at h
  split at h
  · simp at h
  · cases oe with
    | none => dsimp only at h; simp at h
    | some er =>
      dsimp only at h
      cases h
      obtain ⟨he, hs⟩ := htd st2 e htd2
      subst hs
      exact ⟨he, rfl, rfl, rfl, rfl⟩

/-- Claim C9 (corrected): when a call fails, the error is always
`NoAvailableSequences` and the only state field mutated by the failing call
is `sequence_id`, which has been incremented (`+ 1`, wrapping at `2 ^ 64`);
`last_duration_ms`, `logical_volume_id` and `last_logical_volume_id` are
unchanged on the error path. -/
theorem claim_C9 (settings : SnowprintSettings) (st : SnowprintState)
    (reading : Option Nat) (st2 : SnowprintState) (e : Error)
    (h : get_snowprint settings st reading = (st2, .error e)) :
    e = .NoAvailableSequences ∧
    st2.last_duration_ms = st.last_duration_ms ∧
    st2.logical_volume_id = st.logical_volume_id ∧
    st2.last_logical_volume_id = st.last_logical_volume_id ∧
    st2.sequence_id = (st.sequence_id + 1) % U64 :=
  get_snowprint_error_shape settings st reading st2 e h

theorem claim_C9_witness :
    Error.NoAvailableSequences = Error.NoAvailableSequences ∧
    (0 : Nat) = 0 ∧ (0 : Nat) = 0 ∧ (0 : Nat) = 0 ∧
    (1024 : Nat) = (1023 + 1) % U64 :=
  claim_C9 ⟨0, 1, 0⟩ ⟨0, 1023, 0, 0⟩ (some 0) ⟨0, 1024, 0, 0⟩ .NoAvailableSequences rfl

/-! ### The modulo-2 frozen-clock scenario (claim C4)

With `logical_volume_modulo = 2` and the clock frozen at the construction
millisecond: calls 0..1022 stamp shard 0, sequences 1..1023; call 1023
overflows onto shard 1 stamping sequence 0; calls 1024..2046 stamp shard 1,
sequences 1..1023; call 2047 finds the candidate shard `(1 + 1) % 2 = 0`
equal to `last_logical_volume_id` and fails, even though shard 0's sequence 0
was never issued — 2047 identifiers, one short of `1024 × 2`. -/

theorem c4_move :
    get_snowprint c4_settings ⟨0, 1023, 0, 0⟩ (some 0) =
      (⟨0, 0, 1, 0⟩, .ok (compose_snowprint 0 1 0)) := by
  rw [get_snowprint_overflow_move c4_settings ⟨0, 1023, 0, 0⟩ (some 0)
    (frozen_read_const _) (by norm_num) (lt_U64_of_le (by norm_num))
    (lt_U64_of_le (by norm_num)) (by decide)]
  rfl

theorem c4_state_1024 :
    runState c4_settings frozen_readings state0 1024 = ⟨0, 0, 1, 0⟩ := by
  have h : (1024 : Nat) = 1023 + 1 := rfl
  have hf : frozen_readings 1023 = some 0 := rfl
  rw [h, runState_succ, c3_runState c4_settings 1023 (by norm_num), hf, c4_move]

theorem c4_runState_2 (j : Nat) (hj : j ≤ 1023) :
    runState c4_settings frozen_readings state0 (1024 + j) = ⟨0, j, 1, 0⟩ := by
  rw [runState_add c4_settings frozen_readings state0 1024 j, c4_state_1024,
    runState_same_ms c4_settings (fun k => frozen_readings (1024 + k)) ⟨0, 0, 1, 0⟩ j
      (fun i hi => frozen_read_const _) (by dsimp only; omega)]
  simp

theorem c4_runResult_2 (j : Nat) (hj : j < 1023) :
    runResult c4_settings frozen_readings state0 (1024 + j) =
      .ok (compose_snowprint 0 1 (j + 1)) := by
  rw [runResult_add c4_settings frozen_readings state0 1024 j, c4_state_1024,
    runResult_same_ms c4_settings (fun k => frozen_readings (1024 + k)) ⟨0, 0, 1, 0⟩ 1023 j hj
      (fun t ht => frozen_read_const _) (by dsimp only; omega)]
  dsimp only [c4_settings]
  simp only [Nat.zero_add]
  rw [mod_U64_small (lt_U64_of_le (by norm_num))]

theorem c4_fail :
    get_snowprint c4_settings ⟨0, 1023, 1, 0⟩ (some 0) =
      (⟨0, 1024, 1, 0⟩, .error .NoAvailableSequences) := by
  rw [get_snowprint_overflow_fail c4_settings ⟨0, 1023, 1, 0⟩ (some 0)
    (frozen_read_const _) (by norm_num) (lt_U64_of_le (by norm_num))
    (lt_U64_of_le (by norm_num)) (by decide)]

/-! ### Claim C4 -/

/-- Claim C4 counterexample: with `logical_volume_modulo = 2` and the clock
frozen at the construction millisecond, call index 2046 still succeeds
(shard 1, sequence 1023) but call index 2047 — the 2048th call, within the
claimed `1024 × 2` capacity — fails with `NoAvailableSequences`, so `next`
does not succeed for `1024 × modulo` calls and the failure occurs before all
`1024 × modulo` (shard, sequence) combinations are exhausted. -/
theorem claim_C4_counterexample :
    runResult c4_settings frozen_readings state0 2046 = .ok (compose_snowprint 0 1 1023) ∧
    runResult c4_settings frozen_readings state0 2047 = .error .NoAvailableSequences ∧
    2047 < 1024 * 2 := by
  refine ⟨?_, ?_, by norm_num⟩
  · have h : (2046 : Nat) = 1024 + 1022 := rfl
    rw [h, c4_runResult_2 1022 (by norm_num)]
  · have h : (2047 : Nat) = 1024 + 1023 := by norm_num
    have hf : frozen_readings (1024 + 1023) = some 0 := rfl
    rw [runResult_def, h, c4_runState_2 1023 (by norm_num), hf, c4_fail]

/-- Claim C4 (corrected): within a single millisecond the generator can fail
before `1024 × logical_volume_modulo` identifiers are issued, because
exhaustion is detected when the candidate next shard equals
`last_logical_volume_id`, not by counting combinations.  With `modulo = 2`
and the clock frozen at the construction millisecond, call `k` (zero-indexed,
`k < 2047`) succeeds and returns the identifier `k + 1` — so the 2047
identifiers issued in the millisecond are pairwise distinct — and call 2047,
the 2048th, fails with `NoAvailableSequences` even though only
`2047 = 1024 × 2 − 1` of the combinations were issued. -/
theorem claim_C4 :
    (∀ k, k < 2047 → runResult c4_settings frozen_readings state0 k = .ok (k + 1)) ∧
    runResult c4_settings frozen_readings state0 2047 = .error .NoAvailableSequences := by
  constructor
  · intro k hk
    rcases Nat.lt_or_ge k 1023 with h1 | h1
    · rw [c3_runResult c4_settings k h1]
      have hb : c4_settings.logical_volume_base % U64 = 0 := by
        dsimp only [c4_settings]
        simp
      rw [hb, compose_snowprint_eq_add 0 0 (k + 1) (by norm_num) (by omega)]
      norm_num
    · rcases Nat.lt_or_ge k 1024 with h2 | h2
      · have hk1023 : k = 1023 := by omega
        subst hk1023
        rw [runResult_def]
        have hf : frozen_readings 1023 = some 0 := rfl
        rw [c3_runState c4_settings 1023 (by norm_num), hf, c4_move,
          compose_snowprint_eq_add 0 1 0 (by norm_num) (by norm_num)]
        norm_num
      · obtain ⟨j, rfl⟩ : ∃ j, k = 1024 + j := ⟨k - 1024, by omega⟩
        rw [c4_runResult_2 j (by omega),
          compose_snowprint_eq_add 0 1 (j + 1) (by norm_num) (by omega)]
        norm_num
        omega
  · have h : (2047 : Nat) = 1024 + 1023 := by norm_num
    have hf : frozen_readings (1024 + 1023) = some 0 := rfl
    rw [runResult_def, h, c4_runState_2 1023 (by norm_num), hf, c4_fail]

theorem claim_C4_witness :
    (0 : Nat) < 2047 ∧
    runResult c4_settings frozen_readings state0 0 = .ok 1 :=
  ⟨by norm_num, claim_C4.1 0 (by norm_num)⟩

/-! ### Monotonicity of the stored millisecond -/

theorem time_did_not_change_fst_last (st : SnowprintState) (settings : SnowprintSettings) :
    (time_did_not_change st settings).1.last_duration_ms = st.last_duration_ms := by
  unfold time_did_not_change
  dsimp only
  split
  · split
    · rfl
    · rfl
  · rfl

theorem time_did_not_change_fst_llv (st : SnowprintState) (settings : SnowprintSettings) :
    (time_did_not_change st settings).1.last_logical_volume_id = st.last_logical_volume_id := by
  unfold time_did_not_change
  dsimp only
  split
  · split
    · rfl
    · rfl
  · rfl

/-- The clamped duration is never below the stored millisecond. -/
theorem get_most_recent_duration_ge (reading : Option Nat) (last : Nat) :
    last ≤ get_most_recent_duration reading last := by
  unfold get_most_recent_duration
  cases reading with
  | none => exact Nat.le_refl last
  | some r =>
    dsimp only
    split
    · rename_i h
      exact Nat.le_of_lt h
    · exact Nat.le_refl last

/-- One call never decreases `last_duration_ms`. -/
theorem last_duration_mono_step (settings : SnowprintSettings) (st : SnowprintState)
    (reading : Option Nat) :
    st.last_duration_ms ≤ (get_snowprint settings st reading).1.last_duration_ms := by
  unfold get_snowprint compose_snowprint_from_settings_and_state
  dsimp only
  split
  · rename_i h
    dsimp only [time_changed]
    exact Nat.le_of_lt h
  · rcases hh : time_did_not_change st settings with ⟨s1, oe⟩
    have h1 : s1.last_duration_ms = st.last_duration_ms := by
      have h2 := time_did_not_change_fst_last st settings
      rw [hh] at h2
      exact h2
    cases oe
    · dsimp only
      omega
    · dsimp only
      omega

/-- Along any run, `last_duration_ms` is non-decreasing. -/
theorem last_duration_mono (settings : SnowprintSettings) (readings : Nat → Option Nat)
    (s0 : SnowprintState) (i j : Nat) (hij : i ≤ j) :
    (runState settings readings s0 i).last_duration_ms ≤
      (runState settings readings s0 j).last_duration_ms := by
  obtain ⟨k, rfl⟩ : ∃ k, j = i + k := ⟨j - i, by omega⟩
  clear hij
  induction k with
  | zero => exact Nat.le_refl _
  | succ m ih =>
    have hs : runState settings readings s0 (i + (m + 1)) =
        (get_snowprint settings (runState settings readings s0 (i + m))
          (readings (i + m))).1 := rfl
    rw [hs]
    exact Nat.le_trans ih (last_duration_mono_step settings _ (readings (i + m)))

/-- A successful call returns the identifier composed from the post-call
state: its stamped millisecond is the new `last_duration_ms`, its shard is
`logical_volume_base + logical_volume_id`, its sequence is `sequence_id`. -/
theorem get_snowprint_ok_stamp (settings : SnowprintSettings) (st : SnowprintState)
    (reading : Option Nat) (st2 : SnowprintState) (v : Nat)
    (h : get_snowprint settings st reading = (st2, .ok v)) :
    v = compose_snowprint st2.last_duration_ms
      ((settings.logical_volume_base + st2.logical_volume_id) % U64) st2.sequence_id := by
  have hge := get_most_recent_duration_ge reading st.last_duration_ms
  unfold get_snowprint compose_snowprint_from_settings_and_state at h
  dsimp only at h
  split at h
  · cases h
    rfl
  · rename_i hnlt
    have hdeq : get_most_recent_duration reading st.last_duration_ms = st.last_duration_ms := by
      omega
    rcases hh : time_did_not_change st settings with ⟨s1, oe⟩
    rw [hh] at h
    have h1 : s1.last_duration_ms = st.last_duration_ms := by
      have h2 := time_did_not_change_fst_last st settings
      rw [hh] at h2
      exact h2
    cases oe with
    | none =>
      dsimp only at h
      cases h
      rw [hdeq, ← h1]
    | some er =>
      dsimp only at h
      cases h

/-! ### The modulo-3 shard-wrap scenario (claim C2)

With `modulo = 3`, readings `1, 2, 2, 2, …`: the first two calls roll the
millisecond forward twice, leaving `logical_volume_id = 2`,
`last_logical_volume_id = 1`.  The frozen millisecond `2` then fills shard 2
(sequences 1..1023), and the overflow call rotates to shard `(2+1) % 3 = 0 ≠
1`, stamping `compose 2 0 0 < compose 2 2 1023`: a later identifier is
numerically smaller although its shard differs. -/

def c2_settings : SnowprintSettings := ⟨0, 3, 0⟩

def c2_readings : Nat → Option Nat := fun k => if k = 0 then some 1 else some 2

theorem c2_reads_tail (i : Nat) : c2_readings (2 + i) = some 2 := by
  unfold c2_readings
  exact if_neg (by omega)

theorem c2_state2 : runState c2_settings c2_readings state0 2 = ⟨2, 0, 2, 1⟩ := rfl

theorem c2_stateAfter (j : Nat) (hj : j ≤ 1023) :
    runState c2_settings c2_readings state0 (2 + j) = ⟨2, j, 2, 1⟩ := by
  rw [runState_add, c2_state2,
    runState_same_ms c2_settings (fun k => c2_readings (2 + k)) ⟨2, 0, 2, 1⟩ j
      (fun i hi => by
        dsimp only
        rw [c2_reads_tail i]
        exact get_most_recent_duration_le (Nat.mod_le 2 U64))
      (by dsimp only; omega)]
  simp

theorem c2_result_tail (j : Nat) (hj : j < 1023) :
    runResult c2_settings c2_readings state0 (2 + j) =
      .ok (compose_snowprint 2 2 (j + 1)) := by
  rw [runResult_add, c2_state2,
    runResult_same_ms c2_settings (fun k => c2_readings (2 + k)) ⟨2, 0, 2, 1⟩ 1023 j hj
      (fun t ht => by
        dsimp only
        rw [c2_reads_tail t]
        exact get_most_recent_duration_le (Nat.mod_le 2 U64))
      (by dsimp only; omega)]
  norm_num [c2_settings, U64_val]

theorem c2_move :
    get_snowprint c2_settings ⟨2, 1023, 2, 1⟩ (some 2) =
      (⟨2, 0, 0, 1⟩, .ok (compose_snowprint 2 0 0)) := by
  rw [get_snowprint_overflow_move c2_settings ⟨2, 1023, 2, 1⟩ (some 2)
    (get_most_recent_duration_le (Nat.mod_le 2 U64)) (by norm_num)
    (lt_U64_of_le (by norm_num)) (lt_U64_of_le (by norm_num)) (by decide)]
  rfl

/-! ### Claim C2 -/

/-- Claim C2 counterexample: two consecutive successful calls on one
generator (readings `1, 2, 2, …`, `modulo = 3`) return
`compose 2 2 1023` and then `compose 2 0 0`: the millisecond field is equal,
the shard field differs (2 versus 0), and the later identifier is strictly
SMALLER as an unsigned integer — refuting both non-decrease and strict
increase on shard change. -/
theorem claim_C2_counterexample :
    runResult c2_settings c2_readings state0 1024 = .ok (compose_snowprint 2 2 1023) ∧
    runResult c2_settings c2_readings state0 1025 = .ok (compose_snowprint 2 0 0) ∧
    compose_snowprint 2 0 0 < compose_snowprint 2 2 1023 ∧
    (decompose_snowprint (compose_snowprint 2 2 1023)).1 =
      (decompose_snowprint (compose_snowprint 2 0 0)).1 ∧
    (decompose_snowprint (compose_snowprint 2 2 1023)).2.1 ≠
      (decompose_snowprint (compose_snowprint 2 0 0)).2.1 := by
  refine ⟨?_, ?_, by decide, by decide, by decide⟩
  · have h : (1024 : Nat) = 2 + 1022 := by norm_num
    rw [h, c2_result_tail 1022 (by norm_num)]
  · have h : (1025 : Nat) = 2 + 1023 := by norm_num
    have hf : c2_readings (2 + 1023) = some 2 := c2_reads_tail 1023
    rw [runResult_def, h, c2_stateAfter 1023 (by norm_num), hf, c2_move]

/-- Claim C2 (corrected): the returned identifiers are NOT monotone as
unsigned integers (a same-millisecond shard rotation can wrap to a smaller
shard, and a timestamp at or past `2 ^ 41` wraps the top field).  What holds:
along any sequence of calls on one generator the stored millisecond
`last_duration_ms` is non-decreasing, and every successful call returns the
identifier composed from its post-call state — so the stamped millisecond of
successive identifiers is non-decreasing. -/
theorem claim_C2 :
    (∀ (settings : SnowprintSettings) (readings : Nat → Option Nat) (s0 : SnowprintState)
      (i j : Nat), i ≤ j →
      (runState settings readings s0 i).last_duration_ms ≤
        (runState settings readings s0 j).last_duration_ms) ∧
    (∀ (settings : SnowprintSettings) (st : SnowprintState) (reading : Option Nat)
      (st2 : SnowprintState) (v : Nat),
      get_snowprint settings st reading = (st2, .ok v) →
      st.last_duration_ms ≤ st2.last_duration_ms ∧
      v = compose_snowprint st2.last_duration_ms
        ((settings.logical_volume_base + st2.logical_volume_id) % U64) st2.sequence_id) := by
  constructor
  · exact last_duration_mono
  · intro settings st reading st2 v h
    constructor
    · have hm := last_duration_mono_step settings st reading
      rw [h] at hm
      exact hm
    · exact get_snowprint_ok_stamp settings st reading st2 v h

theorem claim_C2_witness :
    ((runState c3_settings frozen_readings state0 0).last_duration_ms ≤
      (runState c3_settings frozen_readings state0 1).last_duration_ms) ∧
    (state0.last_duration_ms ≤ (⟨0, 1, 0, 0⟩ : SnowprintState).last_duration_ms ∧
      compose_snowprint 0 0 1 = compose_snowprint
        ((⟨0, 1, 0, 0⟩ : SnowprintState).last_duration_ms)
        ((c3_settings.logical_volume_base +
          (⟨0, 1, 0, 0⟩ : SnowprintState).logical_volume_id) % U64)
        ((⟨0, 1, 0, 0⟩ : SnowprintState).sequence_id)) :=
  ⟨claim_C2.1 c3_settings frozen_readings state0 0 1 (by norm_num),
    claim_C2.2 c3_settings state0 (some 0) ⟨0, 1, 0, 0⟩ (compose_snowprint 0 0 1) rfl⟩

/-! ### Claim C8 -/

/-- Claim C8 (confirmed): if the clock reading of a call is earlier than
`last_duration_ms` (or the reading fails), the millisecond used is clamped to
`last_duration_ms`; a call can only fail with `NoAvailableSequences`, never
because of backward clock movement; `last_duration_ms` never decreases along
any run; and every successful call's identifier is composed from the new
`last_duration_ms`, so no identifier carries a stamped millisecond smaller
than an already-issued one. -/
theorem claim_C8 :
    (∀ r last : Nat, r % U64 < last → get_most_recent_duration (some r) last = last) ∧
    (∀ last : Nat, get_most_recent_duration none last = last) ∧
    (∀ (settings : SnowprintSettings) (st : SnowprintState) (reading : Option Nat)
      (st2 : SnowprintState) (e : Error),
      get_snowprint settings st reading = (st2, .error e) → e = .NoAvailableSequences) ∧
    (∀ (settings : SnowprintSettings) (readings : Nat → Option Nat) (s0 : SnowprintState)
      (i j : Nat), i ≤ j →
      (runState settings readings s0 i).last_duration_ms ≤
        (runState settings readings s0 j).last_duration_ms) ∧
    (∀ (settings : SnowprintSettings) (st : SnowprintState) (reading : Option Nat)
      (st2 : SnowprintState) (v : Nat),
      get_snowprint settings st reading = (st2, .ok v) →
      st.last_duration_ms ≤ st2.last_duration_ms ∧
      v = compose_snowprint st2.last_duration_ms
        ((settings.logical_volume_base + st2.logical_volume_id) % U64) st2.sequence_id) := by
  refine ⟨?_, ?_, ?_, ?_, ?_⟩
  · intro r last h
    exact get_most_recent_duration_le (Nat.le_of_lt h)
  · intro last
    exact get_most_recent_duration_none last
  · intro settings st reading st2 e h
    exact (get_snowprint_error_shape settings st reading st2 e h).1
  · exact last_duration_mono
  · intro settings st reading st2 v h
    refine ⟨?_, get_snowprint_ok_stamp settings st reading st2 v h⟩
    have hm := last_duration_mono_step settings st reading
    rw [h] at hm
    exact hm

theorem claim_C8_witness :
    get_most_recent_duration (some 3) 5 = 5 ∧
    get_most_recent_duration none 7 = 7 ∧
    Error.NoAvailableSequences = Error.NoAvailableSequences ∧
    ((runState c3_settings frozen_readings state0 0).last_duration_ms ≤
      (runState c3_settings frozen_readings state0 1).last_duration_ms) ∧
    (state0.last_duration_ms ≤ (⟨0, 1, 0, 0⟩ : SnowprintState).last_duration_ms ∧
      compose_snowprint 0 0 1 = compose_snowprint
        ((⟨0, 1, 0, 0⟩ : SnowprintState).last_duration_ms)
        ((c3_settings.logical_volume_base +
          (⟨0, 1, 0, 0⟩ : SnowprintState).logical_volume_id) % U64)
        ((⟨0, 1, 0, 0⟩ : SnowprintState).sequence_id)) :=
  ⟨claim_C8.1 3 5 (by rw [U64_val]; norm_num),
    claim_C8.2.1 7,
    claim_C8.2.2.1 ⟨0, 1, 0⟩ ⟨0, 1023, 0, 0⟩ (some 0) ⟨0, 1024, 0, 0⟩
      .NoAvailableSequences rfl,
    claim_C8.2.2.2.1 c3_settings frozen_readings state0 0 1 (by norm_num),
    claim_C8.2.2.2.2 c3_settings state0 (some 0) ⟨0, 1, 0, 0⟩ (compose_snowprint 0 0 1) rfl⟩

/-! ### Shard invariants -/

/-- Both rotation fields stay below `logical_volume_modulo`. -/
def StateInv (settings : SnowprintSettings) (st : SnowprintState) : Prop :=
  st.logical_volume_id < settings.logical_volume_modulo ∧
    st.last_logical_volume_id < settings.logical_volume_modulo

theorem time_did_not_change_inv (st : SnowprintState) (settings : SnowprintSettings)
    (hm : 0 < settings.logical_volume_modulo) (h : StateInv settings st) :
    StateInv settings (time_did_not_change st settings).1 := by
  obtain ⟨h1, h2⟩ := h
  unfold time_did_not_change
  dsimp only
  split
  · split
    · exact ⟨h1, h2⟩
    · exact ⟨Nat.mod_lt _ hm, h2⟩
  · exact ⟨h1, h2⟩

theorem state_inv_step (settings : SnowprintSettings) (st : SnowprintState)
    (reading : Option Nat) (hm : 0 < settings.logical_volume_modulo)
    (h : StateInv settings st) :
    StateInv settings (get_snowprint settings st reading).1 := by
  unfold get_snowprint compose_snowprint_from_settings_and_state
  dsimp only
  split
  · exact ⟨Nat.mod_lt _ hm, h.1⟩
  · rcases hh : time_did_not_change st settings with ⟨s1, oe⟩
    have hs1 : StateInv settings s1 := by
      have h2 := time_did_not_change_inv st settings hm h
      rw [hh] at h2
      exact h2
    cases oe
    · exact hs1
    · exact hs1

theorem state_inv_run (settings : SnowprintSettings) (readings : Nat → Option Nat)
    (s0 : SnowprintState) (hm : 0 < settings.logical_volume_modulo)
    (h0 : StateInv settings s0) (k : Nat) :
    StateInv settings (runState settings readings s0 k) := by
  induction k with
  | zero => exact h0
  | succ n ih => exact state_inv_step settings _ (readings n) hm ih

/-- On a successful same-millisecond call the returned state's sequence
counter is at most 1023. -/
theorem time_did_not_change_none_seq (st : SnowprintState) (settings : SnowprintSettings)
    (s1 : SnowprintState) (h : time_did_not_change st settings = (s1, none)) :
    s1.sequence_id ≤ 1023 := by
  unfold time_did_not_change at h
  dsimp only at h
  split at h
  · split at h
    · cases h
    · cases h
      simp
  · rename_i hle
    cases h
    rw [MAX_SEQUENCES_val] at hle
    dsimp only at hle ⊢
    omega

/-- Every successful call leaves `sequence_id ≤ 1023`. -/
theorem get_snowprint_ok_seq (settings : SnowprintSettings) (st : SnowprintState)
    (reading : Option Nat) (st2 : SnowprintState) (v : Nat)
    (h : get_snowprint settings st reading = (st2, .ok v)) :
    st2.sequence_id ≤ 1023 := by
  unfold get_snowprint compose_snowprint_from_settings_and_state at h
  dsimp only at h
  split at h
  · cases h
    simp [time_changed]
  · rcases hh : time_did_not_change st settings with ⟨s1, oe⟩
    rw [hh] at h
    cases oe with
    | none =>
      dsimp only at h
      cases h
      exact time_did_not_change_none_seq st settings _ hh
    | some er =>
      dsimp only at h
      cases h

/-- A successful call from state `st` returns the pair of the next run state
and the value, packaged for rewriting. -/
theorem runResult_ok_call (settings : SnowprintSettings) (readings : Nat → Option Nat)
    (s0 : SnowprintState) (k : Nat) (v : Nat)
    (h : runResult settings readings s0 k = .ok v) :
    get_snowprint settings (runState settings readings s0 k) (readings k) =
      (runState settings readings s0 (k + 1), .ok v) := by
  rw [runState_succ]
  exact Prod.ext rfl h

/-! ### Claim C6 -/

/-- Claim C6 (confirmed): for a generator with valid settings
(`modulo ≥ 1`, `base + modulo ≤ 8192`) started from a freshly constructed
state, `logical_volume_id` stays in `[0, modulo)` across every operation, and
the shard id field of every successfully returned identifier lies in
`[logical_volume_base, logical_volume_base + logical_volume_modulo)`. -/
theorem claim_C6 (settings : SnowprintSettings) (readings : Nat → Option Nat) (d0 : Nat)
    (hm : 1 ≤ settings.logical_volume_modulo)
    (hcap : settings.logical_volume_base + settings.logical_volume_modulo ≤ 8192) :
    (∀ k, (runState settings readings ⟨d0, 0, 0, 0⟩ k).logical_volume_id <
      settings.logical_volume_modulo) ∧
    (∀ k v, runResult settings readings ⟨d0, 0, 0, 0⟩ k = .ok v →
      settings.logical_volume_base ≤ (decompose_snowprint v).2.1 ∧
      (decompose_snowprint v).2.1 <
        settings.logical_volume_base + settings.logical_volume_modulo) := by
  have hinv : ∀ k, StateInv settings (runState settings readings ⟨d0, 0, 0, 0⟩ k) :=
    state_inv_run settings readings ⟨d0, 0, 0, 0⟩ hm ⟨hm, hm⟩
  refine ⟨fun k => (hinv k).1, fun k v h => ?_⟩
  have hcall := runResult_ok_call settings readings ⟨d0, 0, 0, 0⟩ k v h
  set st2 := runState settings readings ⟨d0, 0, 0, 0⟩ (k + 1) with hst2
  have hlv : st2.logical_volume_id < settings.logical_volume_modulo := (hinv (k + 1)).1
  have hseq : st2.sequence_id ≤ 1023 := get_snowprint_ok_seq settings _ (readings k) st2 v hcall
  have hstamp := get_snowprint_ok_stamp settings _ (readings k) st2 v hcall
  have hshard : (settings.logical_volume_base + st2.logical_volume_id) % U64 =
      settings.logical_volume_base + st2.logical_volume_id :=
    mod_U64_small (lt_U64_of_le (by omega))
  rw [hshard] at hstamp
  have hs13 : settings.logical_volume_base + st2.logical_volume_id < 2 ^ 13 := by
    norm_num
    omega
  have hq10 : st2.sequence_id < 2 ^ 10 := by
    norm_num
    omega
  rw [hstamp, decompose_compose _ _ _ hs13 hq10]
  dsimp only
  omega

theorem claim_C6_witness :
    ((1 : Nat) ≤ c3_settings.logical_volume_modulo) ∧
    (c3_settings.logical_volume_base + c3_settings.logical_volume_modulo ≤ 8192) ∧
    ((runState c3_settings frozen_readings ⟨0, 0, 0, 0⟩ 0).logical_volume_id <
      c3_settings.logical_volume_modulo) ∧
    (c3_settings.logical_volume_base ≤
        (decompose_snowprint (compose_snowprint 0 0 1)).2.1 ∧
      (decompose_snowprint (compose_snowprint 0 0 1)).2.1 <
        c3_settings.logical_volume_base + c3_settings.logical_volume_modulo) :=
  ⟨by norm_num [c3_settings], by norm_num [c3_settings],
    (claim_C6 c3_settings frozen_readings 0 (by norm_num [c3_settings])
      (by norm_num [c3_settings])).1 0,
    (claim_C6 c3_settings frozen_readings 0 (by norm_num [c3_settings])
      (by norm_num [c3_settings])).2 0 (compose_snowprint 0 0 1) rfl⟩

/-! ### Uniqueness machinery (claim C1)

Per call the triple `(last_duration_ms, cyclic shard position, sequence_id)`
strictly increases lexicographically (absent `u64` wraparound of the
sequence counter), so no two successful calls can produce the same
post-state data; with all timestamps below `2 ^ 41` the composed identifier
determines that data, giving uniqueness. -/

/-- Cyclic position of shard `lv` ahead of the stored shard `llv`:
`0` iff `lv = llv`, and stepping `lv` by one (avoiding `llv`) increments it. -/
def posOf (m llv lv : Nat) : Nat := (lv + (m - llv)) % m

theorem posOf_lt (m llv lv : Nat) (hm : 0 < m) : posOf m llv lv < m :=
  Nat.mod_lt _ hm

theorem posOf_eq_zero_iff (m llv lv : Nat) (hm : 0 < m) (_hlv : lv < m) (hllv : llv < m) :
    posOf m llv lv = 0 ↔ lv = llv := by
  unfold posOf
  constructor
  · intro h
    obtain ⟨c, hc⟩ := Nat.dvd_of_mod_eq_zero h
    match c with
    | 0 => omega
    | 1 => omega
    | (e + 2) =>
      have hx : m * (e + 2) = m * e + m + m := by ring
      omega
  · intro h
    subst h
    rw [Nat.add_sub_cancel' (Nat.le_of_lt hllv), Nat.mod_self]

theorem posOf_succ (m llv lv : Nat) (hm : 0 < m) (hlv : lv < m) (hllv : llv < m)
    (hne : (lv + 1) % m ≠ llv) :
    posOf m llv lv < posOf m llv ((lv + 1) % m) := by
  have hcand : (lv + 1) % m < m := Nat.mod_lt _ hm
  have hps : posOf m llv ((lv + 1) % m) = (posOf m llv lv + 1) % m := by
    unfold posOf
    rw [Nat.mod_add_mod]
    have he : lv + 1 + (m - llv) = lv + (m - llv) + 1 := by omega
    rw [he, ← Nat.mod_add_mod]
  have hz : posOf m llv ((lv + 1) % m) ≠ 0 :=
    fun h => hne ((posOf_eq_zero_iff m llv _ hm hcand hllv).1 h)
  have hp : posOf m llv lv < m := posOf_lt m llv lv hm
  have hlt : posOf m llv lv + 1 < m := by
    rcases Nat.lt_or_ge (posOf m llv lv + 1) m with h | h
    · exact h
    · have heq : posOf m llv lv + 1 = m := by omega
      rw [hps, heq, Nat.mod_self] at hz
      exact absurd rfl hz
  rw [hps, Nat.mod_eq_of_lt hlt]
  omega

/-- Strict progress order on generator states: stored millisecond first, then
cyclic shard position, then sequence counter. -/
def KeyLt (settings : SnowprintSettings) (a b : SnowprintState) : Prop :=
  a.last_duration_ms < b.last_duration_ms ∨
    (a.last_duration_ms = b.last_duration_ms ∧
      (posOf settings.logical_volume_modulo a.last_logical_volume_id a.logical_volume_id <
          posOf settings.logical_volume_modulo b.last_logical_volume_id b.logical_volume_id ∨
        (posOf settings.logical_volume_modulo a.last_logical_volume_id a.logical_volume_id =
            posOf settings.logical_volume_modulo b.last_logical_volume_id b.logical_volume_id ∧
          a.sequence_id < b.sequence_id)))

theorem KeyLt_trans (settings : SnowprintSettings) (a b c : SnowprintState)
    (h1 : KeyLt settings a b) (h2 : KeyLt settings b c) : KeyLt settings a c := by
  unfold KeyLt at h1 h2 ⊢
  omega

/-- Exhaustive description of `time_did_not_change`. -/
theorem time_did_not_change_cases (st : SnowprintState) (settings : SnowprintSettings) :
    (time_did_not_change st settings =
        ({ st with sequence_id := (st.sequence_id + 1) % U64 }, none) ∧
      (st.sequence_id + 1) % U64 ≤ 1023) ∨
    (time_did_not_change st settings =
        ({ st with sequence_id := (st.sequence_id + 1) % U64 },
          some .NoAvailableSequences) ∧
      1023 < (st.sequence_id + 1) % U64 ∧
      ((st.logical_volume_id + 1) % U64) % settings.logical_volume_modulo =
        st.last_logical_volume_id) ∨
    (time_did_not_change st settings =
        ({ st with
            sequence_id := 0
            logical_volume_id :=
              ((st.logical_volume_id + 1) % U64) % settings.logical_volume_modulo }, none) ∧
      1023 < (st.sequence_id + 1) % U64 ∧
      ((st.logical_volume_id + 1) % U64) % settings.logical_volume_modulo ≠
        st.last_logical_volume_id) := by
  unfold time_did_not_change
  dsimp only
  split
  · rename_i hgt
    rw [MAX_SEQUENCES_val] at hgt
    split
    · rename_i hceq
      exact Or.inr (Or.inl ⟨rfl, by omega, hceq⟩)
    · rename_i hcne
      exact Or.inr (Or.inr ⟨rfl, by omega, hcne⟩)
  · rename_i hle
    rw [MAX_SEQUENCES_val] at hle
    exact Or.inl ⟨rfl, by omega⟩

theorem get_snowprint_step_seq_le (settings : SnowprintSettings) (st : SnowprintState)
    (reading : Option Nat) :
    (get_snowprint settings st reading).1.sequence_id ≤ st.sequence_id + 1 := by
  unfold get_snowprint compose_snowprint_from_settings_and_state
  dsimp only
  split
  · dsimp only [time_changed]
    omega
  · rcases hh : time_did_not_change st settings with ⟨s1, oe⟩
    have hs1 : s1.sequence_id ≤ st.sequence_id + 1 := by
      rcases time_did_not_change_cases st settings with ⟨he, _⟩ | ⟨he, _, _⟩ | ⟨he, _, _⟩ <;>
        rw [hh] at he <;> cases he <;> dsimp only
      · exact Nat.mod_le _ _
      · exact Nat.mod_le _ _
      · omega
    cases oe
    · dsimp only
      exact hs1
    · dsimp only
      exact hs1

theorem run_seq_bound (settings : SnowprintSettings) (readings : Nat → Option Nat)
    (s0 : SnowprintState) (k : Nat) :
    (runState settings readings s0 k).sequence_id ≤ s0.sequence_id + k := by
  induction k with
  | zero =>
    rw [runState_zero]
    omega
  | succ n ih =>
    have hstep := get_snowprint_step_seq_le settings (runState settings readings s0 n)
      (readings n)
    rw [runState_succ]
    omega

/-- One call strictly increases the progress key, provided the sequence
counter does not wrap at `2 ^ 64`. -/
theorem key_step (settings : SnowprintSettings) (st : SnowprintState) (reading : Option Nat)
    (hm : 0 < settings.logical_volume_modulo)
    (hm8 : settings.logical_volume_modulo ≤ 8192)
    (hinv : StateInv settings st)
    (hseq : st.sequence_id + 1 < U64) :
    KeyLt settings st (get_snowprint settings st reading).1 := by
  obtain ⟨hlv, hllv⟩ := hinv
  have hwr : (st.sequence_id + 1) % U64 = st.sequence_id + 1 := mod_U64_small hseq
  have hlw : (st.logical_volume_id + 1) % U64 = st.logical_volume_id + 1 :=
    mod_U64_small (lt_U64_of_le (by omega))
  unfold get_snowprint compose_snowprint_from_settings_and_state
  dsimp only
  split
  · rename_i hlt
    left
    exact hlt
  · rcases time_did_not_change_cases st settings with
      ⟨he, hle⟩ | ⟨he, hgt, hceq⟩ | ⟨he, hgt, hcne⟩
    · rw [he]
      unfold KeyLt
      dsimp only
      rw [hwr]
      omega
    · rw [he]
      unfold KeyLt
      dsimp only
      rw [hwr]
      omega
    · rw [he]
      unfold KeyLt
      dsimp only
      rw [hlw]
      rw [hlw] at hcne
      right
      refine ⟨rfl, Or.inl ?_⟩
      exact posOf_succ settings.logical_volume_modulo st.last_logical_volume_id
        st.logical_volume_id hm hlv hllv hcne

/-- The progress key strictly increases from call `i` to call `j > i`,
provided the whole run stays clear of sequence-counter wraparound. -/
theorem key_chain (settings : SnowprintSettings) (readings : Nat → Option Nat)
    (s0 : SnowprintState) (hm : 0 < settings.logical_volume_modulo)
    (hm8 : settings.logical_volume_modulo ≤ 8192) (hinv0 : StateInv settings s0)
    (i j : Nat) (hij : i < j) (hjb : s0.sequence_id + j ≤ U64 - 1) :
    KeyLt settings (runState settings readings s0 i) (runState settings readings s0 j) := by
  have hU : U64 = 18446744073709551616 := U64_val
  obtain ⟨d, rfl⟩ : ∃ d, j = i + 1 + d := ⟨j - i - 1, by omega⟩
  clear hij
  induction d with
  | zero =>
    have hb := run_seq_bound settings readings s0 i
    exact key_step settings (runState settings readings s0 i) (readings i) hm hm8
      (state_inv_run settings readings s0 hm hinv0 i) (by omega)
  | succ e ih =>
    have h1 := ih (by omega)
    have hb := run_seq_bound settings readings s0 (i + 1 + e)
    have h2 := key_step settings (runState settings readings s0 (i + 1 + e))
      (readings (i + 1 + e)) hm hm8
      (state_inv_run settings readings s0 hm hinv0 (i + 1 + e)) (by omega)
    exact KeyLt_trans settings _ _ _ h1 h2

/-- The clamped duration stays below `2 ^ 41` when the stored millisecond and
the reading are. -/
theorem get_most_recent_duration_lt (reading : Option Nat) (last : Nat)
    (hl : last < 2 ^ 41) (hr : ∀ r, reading = some r → r % U64 < 2 ^ 41) :
    get_most_recent_duration reading last < 2 ^ 41 := by
  unfold get_most_recent_duration
  cases reading with
  | none => exact hl
  | some r =>
    dsimp only
    split
    · exact hr r rfl
    · exact hl

theorem step_last_le_clamped (settings : SnowprintSettings) (st : SnowprintState)
    (reading : Option Nat) :
    (get_snowprint settings st reading).1.last_duration_ms ≤
      get_most_recent_duration reading st.last_duration_ms := by
  have hge := get_most_recent_duration_ge reading st.last_duration_ms
  unfold get_snowprint compose_snowprint_from_settings_and_state
  dsimp only
  split
  · exact Nat.le_refl _
  · rcases hh : time_did_not_change st settings with ⟨s1, oe⟩
    have h1 : s1.last_duration_ms = st.last_duration_ms := by
      have h2 := time_did_not_change_fst_last st settings
      rw [hh] at h2
      exact h2
    cases oe
    · dsimp only
      omega
    · dsimp only
      omega

/-- All stored milliseconds stay below `2 ^ 41` when the construction reading
and every later reading are. -/
theorem run_last_lt (settings : SnowprintSettings) (readings : Nat → Option Nat)
    (d0 : Nat) (hd0 : d0 < 2 ^ 41)
    (hreads : ∀ k r, readings k = some r → r % U64 < 2 ^ 41) (k : Nat) :
    (runState settings readings ⟨d0, 0, 0, 0⟩ k).last_duration_ms < 2 ^ 41 := by
  induction k with
  | zero => exact hd0
  | succ n ih =>
    have hstep := step_last_le_clamped settings
      (runState settings readings ⟨d0, 0, 0, 0⟩ n) (readings n)
    have hcl := get_most_recent_duration_lt (readings n)
      (runState settings readings ⟨d0, 0, 0, 0⟩ n).last_duration_ms ih
      (fun r hr => hreads n r hr)
    rw [runState_succ]
    omega

/-- A call that does not advance the millisecond preserves both
`last_duration_ms` and `last_logical_volume_id`. -/
theorem step_same_ms_llv (settings : SnowprintSettings) (st : SnowprintState)
    (reading : Option Nat)
    (hnlt : ¬ st.last_duration_ms < get_most_recent_duration reading st.last_duration_ms) :
    (get_snowprint settings st reading).1.last_logical_volume_id =
        st.last_logical_volume_id ∧
      (get_snowprint settings st reading).1.last_duration_ms = st.last_duration_ms := by
  unfold get_snowprint compose_snowprint_from_settings_and_state
  dsimp only
  rw [if_neg hnlt]
  rcases hh : time_did_not_change st settings with ⟨s1, oe⟩
  have e1 := time_did_not_change_fst_llv st settings
  have e2 := time_did_not_change_fst_last st settings
  rw [hh] at e1 e2
  cases oe
  · exact ⟨e1, e2⟩
  · exact ⟨e1, e2⟩

theorem step_time_ms (settings : SnowprintSettings) (st : SnowprintState)
    (reading : Option Nat)
    (hlt : st.last_duration_ms < get_most_recent_duration reading st.last_duration_ms) :
    (get_snowprint settings st reading).1.last_duration_ms =
      get_most_recent_duration reading st.last_duration_ms := by
  unfold get_snowprint compose_snowprint_from_settings_and_state
  dsimp only
  rw [if_pos hlt]
  rfl

/-- While the stored millisecond does not change, `last_logical_volume_id`
does not change. -/
theorem run_llv_lock (settings : SnowprintSettings) (readings : Nat → Option Nat)
    (s0 : SnowprintState) (i j : Nat) (hij : i ≤ j)
    (ht : (runState settings readings s0 i).last_duration_ms =
      (runState settings readings s0 j).last_duration_ms) :
    (runState settings readings s0 i).last_logical_volume_id =
      (runState settings readings s0 j).last_logical_volume_id := by
  obtain ⟨k, rfl⟩ : ∃ k, j = i + k := ⟨j - i, by omega⟩
  clear hij
  induction k with
  | zero => rfl
  | succ n ih =>
    have m1 := last_duration_mono settings readings s0 i (i + n) (by omega)
    have m2 := last_duration_mono settings readings s0 (i + n) (i + (n + 1)) (by omega)
    have e : runState settings readings s0 (i + (n + 1)) =
        (get_snowprint settings (runState settings readings s0 (i + n))
          (readings (i + n))).1 := rfl
    have hmid : (runState settings readings s0 i).last_duration_ms =
        (runState settings readings s0 (i + n)).last_duration_ms := by omega
    have hstep_eq : (runState settings readings s0 (i + (n + 1))).last_duration_ms =
        (runState settings readings s0 (i + n)).last_duration_ms := by omega
    have hnlt : ¬ (runState settings readings s0 (i + n)).last_duration_ms <
        get_most_recent_duration (readings (i + n))
          (runState settings readings s0 (i + n)).last_duration_ms := by
      intro hlt
      have h3 := step_time_ms settings (runState settings readings s0 (i + n))
        (readings (i + n)) hlt
      rw [e] at hstep_eq
      omega
    have hllv := (step_same_ms_llv settings (runState settings readings s0 (i + n))
      (readings (i + n)) hnlt).1
    rw [e, hllv]
    exact ih hmid

/-- Packing is injective over in-range fields. -/
theorem compose_snowprint_inj (t1 s1 q1 t2 s2 q2 : Nat)
    (ht1 : t1 < 2 ^ 41) (hs1 : s1 < 2 ^ 13) (hq1 : q1 < 2 ^ 10)
    (ht2 : t2 < 2 ^ 41) (hs2 : s2 < 2 ^ 13) (hq2 : q2 < 2 ^ 10)
    (h : compose_snowprint t1 s1 q1 = compose_snowprint t2 s2 q2) :
    t1 = t2 ∧ s1 = s2 ∧ q1 = q2 := by
  rw [compose_snowprint_eq_add t1 s1 q1 hs1 hq1,
    compose_snowprint_eq_add t2 s2 q2 hs2 hq2,
    Nat.mod_eq_of_lt ht1, Nat.mod_eq_of_lt ht2] at h
  norm_num at h ht1 hs1 hq1 ht2 hs2 hq2
  refine ⟨by omega, by omega, by omega⟩

/-! ### Claim C1 -/

def c1_readings : Nat → Option Nat := fun k => if k = 0 then some 5 else some (5 + 2 ^ 41)

/-- Claim C1 counterexample: with clock readings `5` then `5 + 2 ^ 41`
(about 69.7 years after the origin, a representable u64 millisecond count),
two successive calls both succeed and return the SAME 64-bit identifier,
because `compose_snowprint` truncates `ms << 23` to 64 bits and
`(5 + 2 ^ 41) <<< 23` wraps to `5 <<< 23`. -/
theorem claim_C1_counterexample :
    runResult c3_settings c1_readings state0 0 = .ok (compose_snowprint 5 0 0) ∧
    runResult c3_settings c1_readings state0 1 = .ok (compose_snowprint (5 + 2 ^ 41) 0 0) ∧
    compose_snowprint (5 + 2 ^ 41) 0 0 = compose_snowprint 5 0 0 := by
  refine ⟨rfl, rfl, ?_⟩
  have h1 : compose_snowprint 5 0 0 = 5 % 2 ^ 41 * 2 ^ 23 + 0 * 2 ^ 10 + 0 :=
    compose_snowprint_eq_add 5 0 0 (by norm_num) (by norm_num)
  have h2 : compose_snowprint (5 + 2 ^ 41) 0 0 =
      (5 + 2 ^ 41) % 2 ^ 41 * 2 ^ 23 + 0 * 2 ^ 10 + 0 :=
    compose_snowprint_eq_add (5 + 2 ^ 41) 0 0 (by norm_num) (by norm_num)
  rw [h1, h2]
  norm_num

/-- Claim C1 (corrected): uniqueness holds only away from the 64-bit
wraparounds.  For a generator built from valid settings (`modulo ≥ 1`,
`base + modulo ≤ 8192`) and a construction millisecond below `2 ^ 41`, if
every clock reading is below `2 ^ 41` milliseconds and fewer than
`2 ^ 64 - 1` calls are made, then any two calls that both succeed return
distinct 64-bit identifiers.  Without the `2 ^ 41` bound two successful calls
can collide (see the counterexample), because the timestamp is truncated to
the 41-bit field. -/
theorem claim_C1 (settings : SnowprintSettings) (readings : Nat → Option Nat) (d0 : Nat)
    (hm : 1 ≤ settings.logical_volume_modulo)
    (hcap : settings.logical_volume_base + settings.logical_volume_modulo ≤ 8192)
    (hd0 : d0 < 2 ^ 41)
    (hreads : ∀ k r, readings k = some r → r % U64 < 2 ^ 41)
    (i j : Nat) (hij : i < j) (hjb : j < U64 - 1)
    (vi vj : Nat)
    (hvi : runResult settings readings ⟨d0, 0, 0, 0⟩ i = .ok vi)
    (hvj : runResult settings readings ⟨d0, 0, 0, 0⟩ j = .ok vj) :
    vi ≠ vj := by
  intro hveq
  have hU : U64 = 18446744073709551616 := U64_val
  have hinv0 : StateInv settings (⟨d0, 0, 0, 0⟩ : SnowprintState) := ⟨hm, hm⟩
  have hci := runResult_ok_call settings readings ⟨d0, 0, 0, 0⟩ i vi hvi
  have hcj := runResult_ok_call settings readings ⟨d0, 0, 0, 0⟩ j vj hvj
  have hSi := state_inv_run settings readings ⟨d0, 0, 0, 0⟩ hm hinv0 (i + 1)
  have hSj := state_inv_run settings readings ⟨d0, 0, 0, 0⟩ hm hinv0 (j + 1)
  have hstampi := get_snowprint_ok_stamp settings _ (readings i) _ vi hci
  have hstampj := get_snowprint_ok_stamp settings _ (readings j) _ vj hcj
  have hseqi := get_snowprint_ok_seq settings _ (readings i) _ vi hci
  have hseqj := get_snowprint_ok_seq settings _ (readings j) _ vj hcj
  have hlasti := run_last_lt settings readings d0 hd0 hreads (i + 1)
  have hlastj := run_last_lt settings readings d0 hd0 hreads (j + 1)
  set sti := runState settings readings ⟨d0, 0, 0, 0⟩ (i + 1) with hsti
  set stj := runState settings readings ⟨d0, 0, 0, 0⟩ (j + 1) with hstj
  have hshi : (settings.logical_volume_base + sti.logical_volume_id) % U64 =
      settings.logical_volume_base + sti.logical_volume_id :=
    mod_U64_small (lt_U64_of_le (by have := hSi.1; omega))
  have hshj : (settings.logical_volume_base + stj.logical_volume_id) % U64 =
      settings.logical_volume_base + stj.logical_volume_id :=
    mod_U64_small (lt_U64_of_le (by have := hSj.1; omega))
  rw [hshi] at hstampi
  rw [hshj] at hstampj
  have hcc : compose_snowprint sti.last_duration_ms
      (settings.logical_volume_base + sti.logical_volume_id) sti.sequence_id =
      compose_snowprint stj.last_duration_ms
        (settings.logical_volume_base + stj.logical_volume_id) stj.sequence_id := by
    rw [← hstampi, ← hstampj, hveq]
  obtain ⟨ht, hs, hq⟩ := compose_snowprint_inj _ _ _ _ _ _
    hlasti (by have := hSi.1; norm_num; omega) (by norm_num; omega)
    hlastj (by have := hSj.1; norm_num; omega) (by norm_num; omega) hcc
  have hlveq : sti.logical_volume_id = stj.logical_volume_id := by omega
  have hkey := key_chain settings readings ⟨d0, 0, 0, 0⟩ hm (by omega) hinv0
    (i + 1) (j + 1) (by omega) (by dsimp only; omega)
  have hllv := run_llv_lock settings readings ⟨d0, 0, 0, 0⟩ (i + 1) (j + 1) (by omega) ht
  rw [← hsti, ← hstj] at hkey hllv
  have hpos : posOf settings.logical_volume_modulo sti.last_logical_volume_id
      sti.logical_volume_id =
      posOf settings.logical_volume_modulo stj.last_logical_volume_id
        stj.logical_volume_id := by
    rw [hlveq, hllv]
  unfold KeyLt at hkey
  omega

theorem claim_C1_witness :
    compose_snowprint 0 0 1 ≠ compose_snowprint 0 0 2 :=
  claim_C1 c3_settings frozen_readings 0 (by norm_num [c3_settings])
    (by norm_num [c3_settings]) (by norm_num)
    (fun k r h => by cases h; norm_num)
    0 1 (by norm_num) (by rw [U64_val]; norm_num)
    (compose_snowprint 0 0 1) (compose_snowprint 0 0 2) rfl rfl

end Snowprints
